import Mathlib

/-!
# SEDNL: `TCPServer` lifecycle and `Packet::swap`

A shallow embedding of `src/SEDNL/TCPServer.cpp` and `include/SEDNL/Packet.ipp`.

The C++ code talks to the operating system and to collaborators defined in other
translation units.  Every such call is made explicit:

* each call is recorded as an `Event` in a trace, in program order;
* the answer of each call is an input of the model (`Env`, `addrinfo`,
  the outcome arguments of `disconnect` and `safe_disconnect`).

Within one run of `connect` every system call is issued at most once per resolved
candidate (`socket`, `bind`) or at most once per run (`set_reuseaddr`,
`set_non_blocking`, `listen`), so attaching the answers to the candidates and to
the handle loses no behaviour.
-/

namespace SedNL

/-! ## Data model -/

/-- The kinds of `NetworkException` thrown by `TCPServer::connect`. -/
inductive NetworkExceptionT where
  | InvalidSocketAddress
  | BindFailed
  | CantSetNonblocking
  | ListenFailed
deriving DecidableEq, Repr

/-- The type `FileDescriptor`: a C `int`; `-1` is the invalid handle. -/
abbrev FileDescriptor := Int

/-- The fields of `SocketAddress` read by `connect`. -/
structure SocketAddress where
  m_name : String
  m_port : Int
deriving DecidableEq, Repr

/-- One node of the `addrinfo` list returned by the resolver, together with the
answers the operating system gives when `connect` tries it:
`socket_result` is what `socket(ai_family, ai_socktype, ai_protocol)` returns
(`-1` on failure) and `bind_result` what `bind(fd, ai_addr, ai_addrlen)` returns
(`0` on success). -/
structure addrinfo where
  socket_result : FileDescriptor
  bind_result : Int
deriving DecidableEq, Repr

/-- The data members of `TCPServer` used in `TCPServer.cpp`.
`m_listener` is a pointer to an `EventListener`; `none` is `nullptr`. -/
structure TCPServer where
  m_fd : FileDescriptor
  m_connected : Bool
  m_listener : Option Nat
deriving DecidableEq, Repr

/-- The collaborators of `connect` that live outside `TCPServer.cpp`:
`SocketAddress::is_server_valid`, `retrieve_addresses` (the list it stores in
`addrs`), `set_reuseaddr`, `set_non_blocking`, `listen`, the constant
`MAX_CONNECTIONS` and the build flag `SEDNL_NOWARN`. -/
structure Env where
  is_server_valid : SocketAddress → Bool
  retrieve_addresses : String → Int → List addrinfo
  set_reuseaddr : FileDescriptor → Bool
  set_non_blocking : FileDescriptor → Bool
  listen : FileDescriptor → Int → Int
  MAX_CONNECTIONS : Int
  SEDNL_NOWARN : Bool

/-- What a call did, as seen from outside the process. -/
inductive Event where
  /-- `retrieve_addresses(...)` was called. -/
  | retrieve_addresses
  /-- `socket(...)` was called for the candidate at position `node`; it returned `fd`. -/
  | socket (node : Nat) (fd : FileDescriptor)
  /-- `bind(fd, ...)` was called; it returned `errcode`. -/
  | bind (fd : FileDescriptor) (errcode : Int)
  /-- `close(fd)` was called. -/
  | close (fd : FileDescriptor)
  /-- `set_reuseaddr(fd)` was called; it returned `ok`. -/
  | set_reuseaddr (fd : FileDescriptor) (ok : Bool)
  /-- The warning about `SO_REUSEADDR` was written to `std::cerr`. -/
  | warn_reuseaddr
  /-- `set_non_blocking(fd)` was called; it returned `ok`. -/
  | set_non_blocking (fd : FileDescriptor) (ok : Bool)
  /-- `listen(fd, backlog)` was called; it returned `ret`. -/
  | listen (fd : FileDescriptor) (backlog : Int) (ret : Int)
  /-- The constructor of `std::lock_guard` ran on `m_mutex`; `ok = false` when it threw. -/
  | lock (ok : Bool)
  /-- `warn_lock(e, ...)` was called. -/
  | warn_lock
  /-- `m_listener->tell_disconnected(this)` was called on listener `listener`. -/
  | tell_disconnected (listener : Nat)
deriving DecidableEq, Repr

/-- The outcome of a run of `connect`: the exception it threw, if any, the server
afterwards, and the calls it made. -/
structure ConnectRun where
  result : Except NetworkExceptionT Unit
  server : TCPServer
  trace : List Event

/-! ## `TCPServer::connect` -/

/-- The `for (addr = addrs; addr != nullptr; addr = addr->ai_next)` loop of `connect`.
`node` is the position of the head of the remaining list.  Returns `none` when the
loop ends with `addr == nullptr`, and the position and handle of the candidate at
which it left through `break` otherwise. -/
def bind_loop : Nat → List addrinfo → Option (Nat × FileDescriptor) × List Event
  | _, [] => (none, [])
  | node, addr :: ai_next =>
    let fd := addr.socket_result
    if fd = -1 then
      let rest := bind_loop (node + 1) ai_next
      (rest.1, Event.socket node fd :: rest.2)
    else
      let errcode := addr.bind_result
      if errcode = 0 then
        (some (node, fd), [Event.socket node fd, Event.bind fd errcode])
      else
        let rest := bind_loop (node + 1) ai_next
        (rest.1, Event.socket node fd :: Event.bind fd errcode :: Event.close fd :: rest.2)

/-- The `if (reuseaddr) if (!set_reuseaddr(fd)) { warning }` statement. -/
def reuseaddr_step (env : Env) (fd : FileDescriptor) (reuseaddr : Bool) : List Event :=
  if reuseaddr then
    if env.set_reuseaddr fd then [Event.set_reuseaddr fd true]
    else if env.SEDNL_NOWARN then [Event.set_reuseaddr fd false]
    else [Event.set_reuseaddr fd false, Event.warn_reuseaddr]
  else []

/-- The method `TCPServer::connect(socket_address, reuseaddr)`. -/
def connect (env : Env) (s : TCPServer) (socket_address : SocketAddress) (reuseaddr : Bool) :
    ConnectRun :=
  if env.is_server_valid socket_address = false then
    ⟨.error .InvalidSocketAddress, s, []⟩
  else
    let addrs := env.retrieve_addresses socket_address.m_name socket_address.m_port
    match bind_loop 0 addrs with
    | (none, t) => ⟨.error .BindFailed, s, Event.retrieve_addresses :: t⟩
    | (some (_, fd), t) =>
      let t := Event.retrieve_addresses :: t ++ reuseaddr_step env fd reuseaddr
      if env.set_non_blocking fd = false then
        ⟨.error .CantSetNonblocking, s, t ++ [Event.set_non_blocking fd false]⟩
      else
        let ret := env.listen fd env.MAX_CONNECTIONS
        let t := t ++ [Event.set_non_blocking fd true, Event.listen fd env.MAX_CONNECTIONS ret]
        if ret < 0 then
          ⟨.error .ListenFailed, s, t⟩
        else
          ⟨.ok (), { s with m_connected := true, m_fd := fd }, t⟩

/-! ## Socket accounting over a trace -/

/-- The handles returned by successful `socket` calls, in order. -/
def opened : List Event → List FileDescriptor
  | [] => []
  | Event.socket _ fd :: t => if fd = -1 then opened t else fd :: opened t
  | _ :: t => opened t

/-- The handles passed to `close`, in order. -/
def closed : List Event → List FileDescriptor
  | [] => []
  | Event.close fd :: t => fd :: closed t
  | _ :: t => closed t

/-- The handles that are open after the trace, starting from the handles `live`:
a successful `socket` adds its handle, a `close` removes one occurrence of it. -/
def still_open : List FileDescriptor → List Event → List FileDescriptor
  | live, [] => live
  | live, Event.socket _ fd :: t => if fd = -1 then still_open live t else still_open (fd :: live) t
  | live, Event.close fd :: t => still_open (live.erase fd) t
  | live, _ :: t => still_open live t

/-- The positions of the candidates for which `socket` was called. -/
def attempted : List Event → List Nat
  | [] => []
  | Event.socket node _ :: t => node :: attempted t
  | _ :: t => attempted t

/-- The listeners that were told `tell_disconnected`, in order. -/
def notified : List Event → List Nat
  | [] => []
  | Event.tell_disconnected l :: t => l :: notified t
  | _ :: t => notified t

/-- A candidate on which both `socket` and `bind` succeed. -/
def binds (a : addrinfo) : Bool := a.socket_result != -1 && a.bind_result == 0

/-! ## Teardown: `unsafe_disconnect`, `safe_disconnect`, `disconnect`, the destructor -/

/-- How a call to `EventListener::tell_disconnected` ended.  The function is
defined outside `TCPServer.cpp`; whether and what it throws is an input of the
model.  The handler in `disconnect` catches `std::exception` only. -/
inductive TellOutcome where
  | returned
  | threw_std_exception
  | threw_other
deriving DecidableEq, Repr

/-- How a call to a `noexcept` function ended: it returned, or an exception
reached its boundary and `std::terminate` was called. -/
inductive Outcome where
  | returned
  | terminated
deriving DecidableEq, Repr

/-- The outcome of a run of `disconnect` or `safe_disconnect`. -/
structure TeardownRun where
  outcome : Outcome
  server : TCPServer
  trace : List Event
deriving DecidableEq, Repr

/-- The method `TCPServer::unsafe_disconnect()`: the server afterwards and the
calls made. -/
def unsafe_disconnect (s : TCPServer) : TCPServer × List Event :=
  if s.m_connected then
    ({ s with m_fd := -1, m_connected := false }, [Event.close s.m_fd])
  else
    (s, [])

/-- The destructor `TCPServer::~TCPServer()`. -/
def TCPServer_destructor (s : TCPServer) : TCPServer × List Event :=
  unsafe_disconnect s

/-- The call `m_listener->tell_disconnected(this)` as `TCPServer.cpp` shows it: a
call on the listener, recorded in the trace.  `EventListener::tell_disconnected`
is defined in another translation unit.  How the call ends is the `TellOutcome`
given to its caller; in `disconnect` below the server is read again after the
call as it was before it, and `disconnect_with` takes what the callee writes to
the server as a parameter. -/
def EventListener.tell_disconnected (listener : Nat) (t : List Event) : List Event :=
  t ++ [Event.tell_disconnected listener]

/-- The statement `if (m_listener) m_listener->tell_disconnected(this);`
followed by `k`, which runs only when the call returns.  `on_std` is what happens
when the call throws a `std::exception`, `on_other` when it throws anything else. -/
def notify_then (s : TCPServer) (tell : TellOutcome) (k on_std on_other : List Event → TeardownRun)
    (t : List Event) : TeardownRun :=
  match s.m_listener with
  | none => k t
  | some l =>
    match tell with
    | .returned => k (EventListener.tell_disconnected l t)
    | .threw_std_exception => on_std (EventListener.tell_disconnected l t)
    | .threw_other => on_other (EventListener.tell_disconnected l t)

/-- The last statement of both blocks of `disconnect`: `unsafe_disconnect();`,
after which the function returns. -/
def close_and_return (s : TCPServer) (t : List Event) : TeardownRun :=
  ⟨.returned, (unsafe_disconnect s).1, t ++ (unsafe_disconnect s).2⟩

/-- An exception leaves a `noexcept` function: `std::terminate`. -/
def terminate (s : TCPServer) (t : List Event) : TeardownRun :=
  ⟨.terminated, s, t⟩

/-- The `catch (std::exception &e)` block of `disconnect`.  An exception thrown
here is not inside the `try` block any more, so it leaves the function. -/
def disconnect_handler (s : TCPServer) (tell_in_catch : TellOutcome) (t : List Event) :
    TeardownRun :=
  notify_then s tell_in_catch (close_and_return s) (terminate s) (terminate s)
    (t ++ [Event.warn_lock])

/-- The method `TCPServer::disconnect()`.  `lock_throws` says whether the
constructor of the `std::lock_guard` throws (a `std::system_error`);
`tell_in_try` and `tell_in_catch` are the outcomes of the call of
`tell_disconnected` in the `try` block and in the `catch` block. -/
def disconnect (s : TCPServer) (lock_throws : Bool) (tell_in_try tell_in_catch : TellOutcome) :
    TeardownRun :=
  if lock_throws then
    disconnect_handler s tell_in_catch [Event.lock false]
  else
    notify_then s tell_in_try (close_and_return s) (disconnect_handler s tell_in_catch)
      (terminate s) [Event.lock true]

/-- The method `TCPServer::safe_disconnect()`. -/
def safe_disconnect (s : TCPServer) (lock_throws : Bool) : TeardownRun :=
  if lock_throws then
    close_and_return s [Event.lock false, Event.warn_lock]
  else
    close_and_return s [Event.lock true]

/-- The statement `if (m_listener) m_listener->tell_disconnected(this);` when the
callee may write to the server it is given: `tell s` is the server after a call
that returned.  The continuations receive the server as it is after the call. -/
def notify_with (tell : TCPServer → TCPServer) (s : TCPServer) (outcome : TellOutcome)
    (k on_std on_other : TCPServer → List Event → TeardownRun) (t : List Event) : TeardownRun :=
  match s.m_listener with
  | none => k s t
  | some l =>
    match outcome with
    | .returned => k (tell s) (EventListener.tell_disconnected l t)
    | .threw_std_exception => on_std s (EventListener.tell_disconnected l t)
    | .threw_other => on_other s (EventListener.tell_disconnected l t)

/-- The `catch (std::exception &e)` block of `disconnect`, with the callee `tell`. -/
def disconnect_handler_with (tell : TCPServer → TCPServer) (s : TCPServer)
    (tell_in_catch : TellOutcome) (t : List Event) : TeardownRun :=
  notify_with tell s tell_in_catch close_and_return terminate terminate (t ++ [Event.warn_lock])

/-- The method `TCPServer::disconnect()`, with the callee `tell`: the same statements
as `disconnect`, the server being read after each notification as the callee left
it. -/
def disconnect_with (tell : TCPServer → TCPServer) (s : TCPServer) (lock_throws : Bool)
    (tell_in_try tell_in_catch : TellOutcome) : TeardownRun :=
  if lock_throws then
    disconnect_handler_with tell s tell_in_catch [Event.lock false]
  else
    notify_with tell s tell_in_try close_and_return
      (fun s' t => disconnect_handler_with tell s' tell_in_catch t) terminate [Event.lock true]

/-- One call of a teardown method, with the outcomes of the calls it makes. -/
inductive Teardown where
  | unsafe_disconnect
  | safe_disconnect (lock_throws : Bool)
  | disconnect (lock_throws : Bool) (tell_in_try tell_in_catch : TellOutcome)
deriving DecidableEq, Repr

/-- Runs one teardown call on the server `s`. -/
def run_teardown (s : TCPServer) : Teardown → TeardownRun
  | .unsafe_disconnect => ⟨.returned, (unsafe_disconnect s).1, (unsafe_disconnect s).2⟩
  | .safe_disconnect lock_throws => safe_disconnect s lock_throws
  | .disconnect lock_throws tell_in_try tell_in_catch =>
    disconnect s lock_throws tell_in_try tell_in_catch

/-- Runs teardown calls one after the other; the trace is the concatenation of
their traces.  Nothing runs after a call that ended in `std::terminate`. -/
def run_teardowns (s : TCPServer) : List Teardown → TeardownRun
  | [] => ⟨.returned, s, []⟩
  | call :: calls =>
    match run_teardown s call with
    | ⟨.terminated, s', t⟩ => ⟨.terminated, s', t⟩
    | ⟨.returned, s', t⟩ =>
      ⟨(run_teardowns s' calls).outcome, (run_teardowns s' calls).server,
        t ++ (run_teardowns s' calls).trace⟩

/-! ## `Packet::swap` -/

/-- A sample environment: an address is valid when its port is not negative, the
resolver returns `addrs`, `set_reuseaddr` fails, `set_non_blocking` returns
`non_blocking_ok` and `listen` returns `listen_ret`. -/
def sample_env (addrs : List addrinfo) (non_blocking_ok : Bool) (listen_ret : Int) : Env :=
  { is_server_valid := fun a => decide (0 ≤ a.m_port)
    retrieve_addresses := fun _ _ => addrs
    set_reuseaddr := fun _ => false
    set_non_blocking := fun _ => non_blocking_ok
    listen := fun _ _ => listen_ret
    MAX_CONNECTIONS := 10
    SEDNL_NOWARN := false }

/-- A valid sample address. -/
def sample_address : SocketAddress := ⟨"localhost", 4242⟩

/-- A sample address that fails validation. -/
def sample_bad_address : SocketAddress := ⟨"localhost", -1⟩

/-- A server that was never connected and has no listener. -/
def idle_server : TCPServer := ⟨-1, false, none⟩

/-- A connected server on handle `3`, registered with listener `0`. -/
def listening_server : TCPServer := ⟨3, true, some 0⟩

/-! ## Lemmas on traces -/

theorem opened_append (t u : List Event) : opened (t ++ u) = opened t ++ opened u := by
  induction t with
  | nil => rfl
  | cons e t ih =>
    cases e <;> simp [opened, ih]
    split <;> simp

theorem closed_append (t u : List Event) : closed (t ++ u) = closed t ++ closed u := by
  induction t with
  | nil => rfl
  | cons e t ih => cases e <;> simp [closed, ih]

theorem still_open_append (t u : List Event) :
    ∀ live, still_open live (t ++ u) = still_open (still_open live t) u := by
  induction t with
  | nil => intro live; rfl
  | cons e t ih =>
    intro live
    cases e <;> simp [still_open, ih]
    split <;> rfl

theorem attempted_append (t u : List Event) : attempted (t ++ u) = attempted t ++ attempted u := by
  induction t with
  | nil => rfl
  | cons e t ih => cases e <;> simp [attempted, ih]

theorem notified_append (t u : List Event) : notified (t ++ u) = notified t ++ notified u := by
  induction t with
  | nil => rfl
  | cons e t ih => cases e <;> simp [notified, ih]

/-- The address-reuse step opens and closes nothing and tries no candidate. -/
theorem reuseaddr_step_neutral (env : Env) (fd : FileDescriptor) (reuseaddr : Bool) :
    opened (reuseaddr_step env fd reuseaddr) = [] ∧
    closed (reuseaddr_step env fd reuseaddr) = [] ∧
    attempted (reuseaddr_step env fd reuseaddr) = [] ∧
    ∀ live, still_open live (reuseaddr_step env fd reuseaddr) = live := by
  unfold reuseaddr_step
  cases reuseaddr <;> cases env.set_reuseaddr fd <;> cases env.SEDNL_NOWARN <;>
    simp [opened, closed, attempted, still_open]

/-! ## Lemmas on the bind loop -/

theorem binds_false_iff (c : addrinfo) :
    binds c = false ↔ ¬ (c.socket_result ≠ -1 ∧ c.bind_result = 0) := by
  simp [binds]

theorem binds_true_iff (c : addrinfo) :
    binds c = true ↔ c.socket_result ≠ -1 ∧ c.bind_result = 0 := by
  simp [binds]

/-- When no candidate binds, the loop runs to the end of the list, and each handle
it opened is closed before the next candidate is tried. -/
theorem bind_loop_exhausted (l : List addrinfo) (h : ∀ c ∈ l, binds c = false) :
    ∀ node, (bind_loop node l).1 = none ∧
      opened (bind_loop node l).2 = closed (bind_loop node l).2 ∧
      (∀ live, still_open live (bind_loop node l).2 = live) ∧
      attempted (bind_loop node l).2 = (List.range l.length).map (fun i => node + i) := by
  induction l with
  | nil => intro node; simp [bind_loop, opened, closed, still_open, attempted]
  | cons c l ih =>
    intro node
    have hc : binds c = false := h c (List.mem_cons_self _ _)
    have hl : ∀ d ∈ l, binds d = false := fun d hd => h d (List.mem_cons_of_mem _ hd)
    obtain ⟨h1, h2, h3, h4⟩ := ih hl (node + 1)
    have hr : (List.range (l.length + 1)).map (fun i => node + i)
        = node :: (List.range l.length).map (fun i => node + 1 + i) := by
      rw [List.range_succ_eq_map]
      simp [List.map_map, Function.comp_def, Nat.add_assoc, Nat.add_comm 1]
    rw [binds_false_iff] at hc
    by_cases hs : c.socket_result = -1
    · simp [bind_loop, hs, opened, closed, still_open, attempted, h1, h2, h3, h4, hr]
    · have hb : c.bind_result ≠ 0 := fun hb => hc ⟨hs, hb⟩
      simp [bind_loop, hs, hb, opened, closed, still_open, attempted, h1, h2, h3, h4, hr]

/-- The loop leaves at the first candidate that binds. -/
theorem bind_loop_first (pre post : List addrinfo) (c : addrinfo)
    (hpre : ∀ d ∈ pre, binds d = false) (hc : binds c = true) (node : Nat) :
    bind_loop node (pre ++ c :: post) =
      (some (node + pre.length, c.socket_result),
        (bind_loop node pre).2 ++
          [Event.socket (node + pre.length) c.socket_result, Event.bind c.socket_result 0]) := by
  induction pre generalizing node with
  | nil =>
    rw [binds_true_iff] at hc
    simp [bind_loop, hc.1, hc.2]
  | cons d pre ih =>
    have hd : binds d = false := hpre d (List.mem_cons_self _ _)
    have hl : ∀ e ∈ pre, binds e = false := fun e he => hpre e (List.mem_cons_of_mem _ he)
    have h := ih hl (node + 1)
    rw [binds_false_iff] at hd
    have hn : node + 1 + pre.length = node + (pre.length + 1) := by omega
    by_cases hs : d.socket_result = -1
    · simp [bind_loop, hs, h, hn]
    · have hb : d.bind_result ≠ 0 := fun hb => hd ⟨hs, hb⟩
      simp [bind_loop, hs, hb, h, hn]

/-- The loop ends at `nullptr` exactly when no candidate binds; otherwise the
handle it leaves with is the one of the first candidate that binds. -/
theorem bind_loop_find (l : List addrinfo) :
    ∀ node, ((bind_loop node l).1).map Prod.snd = (l.find? binds).map addrinfo.socket_result := by
  induction l with
  | nil => intro node; simp [bind_loop]
  | cons c l ih =>
    intro node
    by_cases hs : c.socket_result = -1
    · have hc : binds c = false := by simp [binds, hs]
      simp [bind_loop, hs, List.find?_cons, hc, ih]
    · by_cases hb : c.bind_result = 0
      · have hc : binds c = true := by simp [binds, hs, hb]
        simp [bind_loop, hs, hb, List.find?_cons, hc]
      · have hc : binds c = false := by simp [binds, hs, hb]
        simp [bind_loop, hs, hb, List.find?_cons, hc, ih]

/-! ## Lemmas on `connect` -/

/-- The run of `connect` when the loop ends with `addr == nullptr`. -/
theorem connect_of_exhausted (env : Env) (s : TCPServer) (a : SocketAddress) (reuseaddr : Bool)
    (hvalid : env.is_server_valid a = true)
    (hnone : (bind_loop 0 (env.retrieve_addresses a.m_name a.m_port)).1 = none) :
    connect env s a reuseaddr =
      ⟨.error .BindFailed, s,
        Event.retrieve_addresses :: (bind_loop 0 (env.retrieve_addresses a.m_name a.m_port)).2⟩ := by
  rcases hbl : bind_loop 0 (env.retrieve_addresses a.m_name a.m_port) with ⟨o, t⟩
  rw [hbl] at hnone
  simp only at hnone
  subst hnone
  simp only [connect, hvalid, Bool.true_eq_false, if_false]
  rw [hbl]

/-- The run of `connect` when the loop leaves through `break` with the handle `fd`. -/
theorem connect_of_bound (env : Env) (s : TCPServer) (a : SocketAddress) (reuseaddr : Bool)
    (node : Nat) (fd : FileDescriptor) (t : List Event)
    (hvalid : env.is_server_valid a = true)
    (hsome : bind_loop 0 (env.retrieve_addresses a.m_name a.m_port) = (some (node, fd), t)) :
    connect env s a reuseaddr =
      if env.set_non_blocking fd = false then
        ⟨.error .CantSetNonblocking, s,
          Event.retrieve_addresses :: t ++ reuseaddr_step env fd reuseaddr ++
            [Event.set_non_blocking fd false]⟩
      else if env.listen fd env.MAX_CONNECTIONS < 0 then
        ⟨.error .ListenFailed, s,
          Event.retrieve_addresses :: t ++ reuseaddr_step env fd reuseaddr ++
            [Event.set_non_blocking fd true,
              Event.listen fd env.MAX_CONNECTIONS (env.listen fd env.MAX_CONNECTIONS)]⟩
      else
        ⟨.ok (), { s with m_connected := true, m_fd := fd },
          Event.retrieve_addresses :: t ++ reuseaddr_step env fd reuseaddr ++
            [Event.set_non_blocking fd true,
              Event.listen fd env.MAX_CONNECTIONS (env.listen fd env.MAX_CONNECTIONS)]⟩ := by
  simp only [connect, hvalid, Bool.true_eq_false, if_false]
  rw [hsome]

/-- When the loop leaves through `break`, the handle it holds came from a successful
`socket` call on the candidate it stopped at and was bound successfully. -/
theorem bind_loop_bound (l : List addrinfo) (k : Nat) (fd : FileDescriptor) :
    ∀ node, (bind_loop node l).1 = some (k, fd) →
      fd ≠ -1 ∧ Event.socket k fd ∈ (bind_loop node l).2 ∧ Event.bind fd 0 ∈ (bind_loop node l).2 := by
  induction l with
  | nil => intro node h; simp [bind_loop] at h
  | cons c l ih =>
    intro node h
    by_cases hs : c.socket_result = -1
    · simp only [bind_loop, hs, if_true] at h ⊢
      obtain ⟨h1, h2, h3⟩ := ih (node + 1) h
      exact ⟨h1, List.mem_cons_of_mem _ h2, List.mem_cons_of_mem _ h3⟩
    · by_cases hb : c.bind_result = 0
      · simp only [bind_loop, hs, hb, if_true, if_false, Option.some.injEq, Prod.mk.injEq] at h ⊢
        obtain ⟨rfl, rfl⟩ := h
        simp [hs]
      · simp only [bind_loop, hs, hb, if_false] at h ⊢
        obtain ⟨h1, h2, h3⟩ := ih (node + 1) h
        exact ⟨h1, by simp [h2], by simp [h3]⟩

/-- The exception thrown and the server afterwards, in terms of the first candidate
that binds.  Neither `reuseaddr` nor `set_reuseaddr` occurs on the right. -/
theorem connect_result_server (env : Env) (s : TCPServer) (a : SocketAddress) (reuseaddr : Bool) :
    ((connect env s a reuseaddr).result, (connect env s a reuseaddr).server) =
      if env.is_server_valid a = false then (.error .InvalidSocketAddress, s)
      else
        match (env.retrieve_addresses a.m_name a.m_port).find? binds with
        | none => (.error .BindFailed, s)
        | some c =>
          if env.set_non_blocking c.socket_result = false then (.error .CantSetNonblocking, s)
          else if env.listen c.socket_result env.MAX_CONNECTIONS < 0 then (.error .ListenFailed, s)
          else (.ok (), { s with m_connected := true, m_fd := c.socket_result }) := by
  by_cases hvalid : env.is_server_valid a = false
  · simp [connect, hvalid]
  · have hv : env.is_server_valid a = true := by simpa using hvalid
    rw [if_neg hvalid]
    have hfind := bind_loop_find (env.retrieve_addresses a.m_name a.m_port) 0
    rcases hbl : bind_loop 0 (env.retrieve_addresses a.m_name a.m_port) with ⟨o, t⟩
    rw [hbl] at hfind
    cases o with
    | none =>
      have hnone : (env.retrieve_addresses a.m_name a.m_port).find? binds = none := by
        simpa using hfind.symm
      have h1 : (bind_loop 0 (env.retrieve_addresses a.m_name a.m_port)).1 = none := by rw [hbl]
      rw [connect_of_exhausted env s a reuseaddr hv h1, hnone]
    | some p =>
      obtain ⟨k, fd⟩ := p
      have hsome : ∃ c, (env.retrieve_addresses a.m_name a.m_port).find? binds = some c ∧
          c.socket_result = fd := by
        simpa [Option.map_eq_some'] using hfind.symm
      obtain ⟨c, hc, rfl⟩ := hsome
      rw [connect_of_bound env s a reuseaddr k c.socket_result t hv hbl, hc]
      by_cases hnb : env.set_non_blocking c.socket_result = false
      · simp [hnb]
      · by_cases hl : env.listen c.socket_result env.MAX_CONNECTIONS < 0
        · simp [hnb, hl]
        · simp [hnb, hl]

/-- When the loop leaves through `break`, every handle it opened before has been
closed and the handle it leaves with is open. -/
theorem bind_loop_accounting (l : List addrinfo) (k : Nat) (fd : FileDescriptor) :
    ∀ node, (bind_loop node l).1 = some (k, fd) →
      opened (bind_loop node l).2 = closed (bind_loop node l).2 ++ [fd] ∧
      ∀ live, still_open live (bind_loop node l).2 = fd :: live := by
  induction l with
  | nil => intro node h; simp [bind_loop] at h
  | cons c l ih =>
    intro node h
    by_cases hs : c.socket_result = -1
    · simp only [bind_loop, hs, if_true] at h ⊢
      obtain ⟨h1, h2⟩ := ih (node + 1) h
      simp [opened, closed, still_open, h1, h2]
    · by_cases hb : c.bind_result = 0
      · simp only [bind_loop, hs, hb, if_true, if_false, Option.some.injEq, Prod.mk.injEq] at h ⊢
        obtain ⟨rfl, rfl⟩ := h
        simp [opened, closed, still_open, hs]
      · simp only [bind_loop, hs, hb, if_false] at h ⊢
        obtain ⟨h1, h2⟩ := ih (node + 1) h
        simp [opened, closed, still_open, hs, h1, h2]

/-- Whenever `connect` throws `CantSetNonblocking` or `ListenFailed`, the handle that
was bound is still open: `connect` called `close` only on the handles opened before
it. -/
theorem connect_error_after_bind (env : Env) (s : TCPServer) (a : SocketAddress)
    (reuseaddr : Bool)
    (herr : (connect env s a reuseaddr).result = .error .CantSetNonblocking ∨
      (connect env s a reuseaddr).result = .error .ListenFailed) :
    ∃ fd, fd ≠ -1 ∧
      opened (connect env s a reuseaddr).trace = closed (connect env s a reuseaddr).trace ++ [fd] ∧
      ∀ live, still_open live (connect env s a reuseaddr).trace = fd :: live := by
  by_cases hvalid : env.is_server_valid a = false
  · simp [connect, hvalid] at herr
  · have hv : env.is_server_valid a = true := by simpa using hvalid
    rcases hbl : bind_loop 0 (env.retrieve_addresses a.m_name a.m_port) with ⟨o, t⟩
    cases o with
    | none =>
      have h1 : (bind_loop 0 (env.retrieve_addresses a.m_name a.m_port)).1 = none := by rw [hbl]
      rw [connect_of_exhausted env s a reuseaddr hv h1] at herr
      simp at herr
    | some p =>
      obtain ⟨k, fd⟩ := p
      have h1 : (bind_loop 0 (env.retrieve_addresses a.m_name a.m_port)).1 = some (k, fd) := by
        rw [hbl]
      obtain ⟨b1, _, _⟩ := bind_loop_bound _ k fd 0 h1
      obtain ⟨a1, a2⟩ := bind_loop_accounting _ k fd 0 h1
      rw [hbl] at a1 a2
      obtain ⟨r1, r2, _, r4⟩ := reuseaddr_step_neutral env fd reuseaddr
      refine ⟨fd, b1, ?_⟩
      rw [connect_of_bound env s a reuseaddr k fd t hv hbl]
      by_cases hnb : env.set_non_blocking fd = false
      · rw [if_pos hnb]
        refine ⟨?_, fun live => ?_⟩
        · simp [opened, closed, opened_append, closed_append, a1, r1, r2]
        · simp [still_open, still_open_append, a2, r4]
      · rw [if_neg hnb]
        by_cases hl : env.listen fd env.MAX_CONNECTIONS < 0
        · rw [if_pos hl]
          refine ⟨?_, fun live => ?_⟩
          · simp [opened, closed, opened_append, closed_append, a1, r1, r2]
          · simp [still_open, still_open_append, a2, r4]
        · rw [if_neg hl]
          refine ⟨?_, fun live => ?_⟩
          · simp [opened, closed, opened_append, closed_append, a1, r1, r2]
          · simp [still_open, still_open_append, a2, r4]

/-! ## Claims on `connect` -/

/-- C9. An address for which `is_server_valid()` is false makes `connect` throw
`InvalidSocketAddress` with an empty trace (the resolver is not called, no socket is
created, bound or closed) and leaves every field of the server as it was. -/
theorem connect_invalid_address_rejected (env : Env) (s : TCPServer) (a : SocketAddress)
    (reuseaddr : Bool) (hinvalid : env.is_server_valid a = false) :
    (connect env s a reuseaddr).result = .error .InvalidSocketAddress ∧
    (connect env s a reuseaddr).trace = [] ∧
    (connect env s a reuseaddr).server = s := by
  simp [connect, hinvalid]

/-- C1. For a valid address whose resolved list (empty or not) has no candidate on
which both `socket` and `bind` succeed, `connect` throws `BindFailed`; the handles it
opened are exactly the handles it closed (same number, same order), whatever sockets
were open before are the ones open afterwards, and the server is unchanged. -/
theorem connect_bind_exhaustion (env : Env) (s : TCPServer) (a : SocketAddress)
    (reuseaddr : Bool) (hvalid : env.is_server_valid a = true)
    (hnone : ∀ c ∈ env.retrieve_addresses a.m_name a.m_port,
      ¬ (c.socket_result ≠ -1 ∧ c.bind_result = 0)) :
    (connect env s a reuseaddr).result = .error .BindFailed ∧
    (opened (connect env s a reuseaddr).trace).length
      = (closed (connect env s a reuseaddr).trace).length ∧
    opened (connect env s a reuseaddr).trace = closed (connect env s a reuseaddr).trace ∧
    (∀ live, still_open live (connect env s a reuseaddr).trace = live) ∧
    (connect env s a reuseaddr).server = s := by
  have hb : ∀ c ∈ env.retrieve_addresses a.m_name a.m_port, binds c = false :=
    fun c hc => (binds_false_iff c).2 (hnone c hc)
  obtain ⟨h1, h2, h3, _⟩ := bind_loop_exhausted _ hb 0
  rw [connect_of_exhausted env s a reuseaddr hvalid h1]
  refine ⟨rfl, ?_, ?_, ?_, rfl⟩
  · simp [opened, closed, h2]
  · simp [opened, closed, h2]
  · intro live
    simp [still_open, h3]

/-- C2. For a valid address whose resolved list is `pre ++ c :: post`, where no
candidate of `pre` binds, `c` binds, and `set_non_blocking` and `listen` succeed on
the handle of `c`: `connect` succeeds, the server is connected with the handle created
for `c`, the candidates tried are exactly positions `0 .. pre.length` in order (none
after `c`), and every handle opened before that of `c` has been closed, so the handle
of `c` is the only one left open. -/
theorem connect_first_successful_bind_wins (env : Env) (s : TCPServer) (a : SocketAddress)
    (reuseaddr : Bool) (pre post : List addrinfo) (c : addrinfo)
    (hvalid : env.is_server_valid a = true)
    (hres : env.retrieve_addresses a.m_name a.m_port = pre ++ c :: post)
    (hpre : ∀ d ∈ pre, ¬ (d.socket_result ≠ -1 ∧ d.bind_result = 0))
    (hsocket : c.socket_result ≠ -1) (hbind : c.bind_result = 0)
    (hnonblocking : env.set_non_blocking c.socket_result = true)
    (hlisten : 0 ≤ env.listen c.socket_result env.MAX_CONNECTIONS) :
    (connect env s a reuseaddr).result = .ok () ∧
    (connect env s a reuseaddr).server.m_connected = true ∧
    (connect env s a reuseaddr).server.m_fd = c.socket_result ∧
    attempted (connect env s a reuseaddr).trace = List.range (pre.length + 1) ∧
    opened (connect env s a reuseaddr).trace
      = closed (connect env s a reuseaddr).trace ++ [c.socket_result] ∧
    (∀ live, still_open live (connect env s a reuseaddr).trace = c.socket_result :: live) := by
  have hb : ∀ d ∈ pre, binds d = false := fun d hd => (binds_false_iff d).2 (hpre d hd)
  have hc : binds c = true := (binds_true_iff c).2 ⟨hsocket, hbind⟩
  have hloop := bind_loop_first pre post c hb hc 0
  rw [← hres] at hloop
  obtain ⟨_, h2, h3, h4⟩ := bind_loop_exhausted pre hb 0
  obtain ⟨r1, r2, r3, r4⟩ := reuseaddr_step_neutral env c.socket_result reuseaddr
  have hl : ¬ env.listen c.socket_result env.MAX_CONNECTIONS < 0 := not_lt.mpr hlisten
  rw [connect_of_bound env s a reuseaddr _ _ _ hvalid hloop]
  rw [if_neg (by simp [hnonblocking]), if_neg hl]
  refine ⟨rfl, rfl, rfl, ?_, ?_, ?_⟩
  · simp [attempted, attempted_append, h4, r3, List.range_succ]
  · simp [opened, closed, opened_append, closed_append, h2, r1, r2, hsocket]
  · intro live
    simp [still_open, still_open_append, h3, r4, hsocket]

/-- C8. For a server that is not connected, `connect` succeeds exactly when the address
is valid, some candidate binds, and `set_non_blocking` and `listen` succeed on the
handle of the first such candidate.  On success the server is connected, keeps its
listener, and its handle is that bound handle, on which `set_non_blocking` and `listen`
were called with success.  On any exception (`InvalidSocketAddress`, `BindFailed`,
`CantSetNonblocking`, `ListenFailed`) the server is exactly as before, hence not
connected.  The exception thrown and the server afterwards are the same for every
value of `reuseaddr` and every behaviour of `set_reuseaddr`. -/
theorem connect_clean_transition (env : Env) (s : TCPServer) (a : SocketAddress)
    (reuseaddr : Bool) (hnot_connected : s.m_connected = false) :
    ((connect env s a reuseaddr).result = .ok () ↔
      env.is_server_valid a = true ∧
      ∃ c, (env.retrieve_addresses a.m_name a.m_port).find? binds = some c ∧
        env.set_non_blocking c.socket_result = true ∧
        0 ≤ env.listen c.socket_result env.MAX_CONNECTIONS) ∧
    ((connect env s a reuseaddr).result = .ok () →
      (connect env s a reuseaddr).server.m_connected = true ∧
      (connect env s a reuseaddr).server.m_listener = s.m_listener ∧
      (connect env s a reuseaddr).server.m_fd ≠ -1 ∧
      Event.bind (connect env s a reuseaddr).server.m_fd 0 ∈ (connect env s a reuseaddr).trace ∧
      Event.set_non_blocking (connect env s a reuseaddr).server.m_fd true
        ∈ (connect env s a reuseaddr).trace ∧
      ∃ ret, 0 ≤ ret ∧
        Event.listen (connect env s a reuseaddr).server.m_fd env.MAX_CONNECTIONS ret
          ∈ (connect env s a reuseaddr).trace) ∧
    (∀ e, (connect env s a reuseaddr).result = .error e →
      (e = .InvalidSocketAddress ∨ e = .BindFailed ∨ e = .CantSetNonblocking ∨ e = .ListenFailed) ∧
      (connect env s a reuseaddr).server = s ∧
      (connect env s a reuseaddr).server.m_connected = false) ∧
    (∀ (set_reuseaddr' : FileDescriptor → Bool) (reuseaddr' : Bool),
      (connect { env with set_reuseaddr := set_reuseaddr' } s a reuseaddr').result
        = (connect env s a reuseaddr).result ∧
      (connect { env with set_reuseaddr := set_reuseaddr' } s a reuseaddr').server
        = (connect env s a reuseaddr).server) := by
  have hrs := connect_result_server env s a reuseaddr
  have hres := congrArg Prod.fst hrs
  have hsrv := congrArg Prod.snd hrs
  simp only at hres hsrv
  refine ⟨?_, ?_, ?_, ?_⟩
  · rw [hres]
    by_cases hvalid : env.is_server_valid a = false
    · simp [hvalid]
    · rw [if_neg hvalid]
      have hv : env.is_server_valid a = true := by simpa using hvalid
      cases hf : (env.retrieve_addresses a.m_name a.m_port).find? binds with
      | none => simp [hv]
      | some c =>
        by_cases hnb : env.set_non_blocking c.socket_result = false
        · simp [hv, hnb]
        · by_cases hl : env.listen c.socket_result env.MAX_CONNECTIONS < 0
          · simp [hv, hnb, hl]
          · have hl2 : 0 ≤ env.listen c.socket_result env.MAX_CONNECTIONS := not_lt.mp hl
            simp [hv, hnb, hl, hl2]
  · intro hok
    by_cases hvalid : env.is_server_valid a = false
    · simp [connect, hvalid] at hok
    · have hv : env.is_server_valid a = true := by simpa using hvalid
      rcases hbl : bind_loop 0 (env.retrieve_addresses a.m_name a.m_port) with ⟨o, t⟩
      cases o with
      | none =>
        have h1 : (bind_loop 0 (env.retrieve_addresses a.m_name a.m_port)).1 = none := by rw [hbl]
        rw [connect_of_exhausted env s a reuseaddr hv h1] at hok
        simp at hok
      | some p =>
        obtain ⟨k, fd⟩ := p
        have h1 : (bind_loop 0 (env.retrieve_addresses a.m_name a.m_port)).1 = some (k, fd) := by
          rw [hbl]
        obtain ⟨b1, _, b3⟩ := bind_loop_bound _ k fd 0 h1
        rw [hbl] at b3
        rw [connect_of_bound env s a reuseaddr k fd t hv hbl] at hok ⊢
        by_cases hnb : env.set_non_blocking fd = false
        · simp [hnb] at hok
        · by_cases hl : env.listen fd env.MAX_CONNECTIONS < 0
          · simp [hnb, hl] at hok
          · have hl2 : 0 ≤ env.listen fd env.MAX_CONNECTIONS := not_lt.mp hl
            rw [if_neg hnb, if_neg hl]
            refine ⟨rfl, rfl, b1, ?_, ?_, env.listen fd env.MAX_CONNECTIONS, hl2, ?_⟩
            · simp [b3]
            · simp
            · simp
  · intro e he
    refine ⟨by cases e <;> simp, ?_⟩
    have hs : (connect env s a reuseaddr).server = s := by
      rw [hsrv]
      rw [hres] at he
      by_cases hvalid : env.is_server_valid a = false
      · simp [hvalid]
      · rw [if_neg hvalid] at he ⊢
        cases hf : (env.retrieve_addresses a.m_name a.m_port).find? binds with
        | none => simp
        | some c =>
          rw [hf] at he
          by_cases hnb : env.set_non_blocking c.socket_result = false
          · simp [hnb]
          · by_cases hl : env.listen c.socket_result env.MAX_CONNECTIONS < 0
            · simp [hnb, hl]
            · simp [hnb, hl] at he
    exact ⟨hs, by rw [hs]; exact hnot_connected⟩
  · intro f r
    have hrs2 := connect_result_server { env with set_reuseaddr := f } s a r
    have h := hrs2.trans hrs.symm
    exact ⟨congrArg Prod.fst h, congrArg Prod.snd h⟩

/-! ## `connect` on sample inputs -/

/-- Witness of C9: a negative port is rejected before anything else happens. -/
theorem connect_invalid_address_rejected_witness :
    (sample_env [⟨3, 0⟩] true 0).is_server_valid sample_bad_address = false ∧
    (connect (sample_env [⟨3, 0⟩] true 0) idle_server sample_bad_address true).result
      = .error .InvalidSocketAddress ∧
    (connect (sample_env [⟨3, 0⟩] true 0) idle_server sample_bad_address true).trace = [] ∧
    (connect (sample_env [⟨3, 0⟩] true 0) idle_server sample_bad_address true).server
      = idle_server :=
  ⟨by decide,
    connect_invalid_address_rejected (sample_env [⟨3, 0⟩] true 0) idle_server sample_bad_address
      true (by decide)⟩

/-- Witness of C1: three candidates; `socket` fails on the first, `bind` fails on the
other two (the operating system hands out handle `3` twice). -/
theorem connect_bind_exhaustion_witness :
    (connect (sample_env [⟨-1, 0⟩, ⟨3, -1⟩, ⟨3, -1⟩] true 0) idle_server sample_address true).result
      = .error .BindFailed ∧
    still_open []
      (connect (sample_env [⟨-1, 0⟩, ⟨3, -1⟩, ⟨3, -1⟩] true 0) idle_server sample_address true).trace
      = [] :=
  have h := connect_bind_exhaustion (sample_env [⟨-1, 0⟩, ⟨3, -1⟩, ⟨3, -1⟩] true 0) idle_server
    sample_address true (by decide) (by decide)
  ⟨h.1, h.2.2.2.1 []⟩

/-- Witness of C2: the first two candidates fail to bind, the third binds on handle `5`,
the fourth is never tried. -/
theorem connect_first_successful_bind_wins_witness :
    (connect (sample_env [⟨3, -1⟩, ⟨4, -1⟩, ⟨5, 0⟩, ⟨6, 0⟩] true 0) idle_server sample_address
      false).result = .ok () ∧
    (connect (sample_env [⟨3, -1⟩, ⟨4, -1⟩, ⟨5, 0⟩, ⟨6, 0⟩] true 0) idle_server sample_address
      false).server.m_fd = 5 ∧
    attempted (connect (sample_env [⟨3, -1⟩, ⟨4, -1⟩, ⟨5, 0⟩, ⟨6, 0⟩] true 0) idle_server
      sample_address false).trace = [0, 1, 2] :=
  have h := connect_first_successful_bind_wins
    (sample_env [⟨3, -1⟩, ⟨4, -1⟩, ⟨5, 0⟩, ⟨6, 0⟩] true 0) idle_server sample_address false
    [⟨3, -1⟩, ⟨4, -1⟩] [⟨6, 0⟩] ⟨5, 0⟩ (by decide) rfl (by decide) (by decide) rfl rfl (by decide)
  ⟨h.1, h.2.2.1, h.2.2.2.1⟩

/-- Witness of C8: an idle server and one candidate that binds on handle `3`. -/
theorem connect_clean_transition_witness :
    idle_server.m_connected = false ∧
    (connect (sample_env [⟨3, 0⟩] true 0) idle_server sample_address true).result = .ok () ∧
    (connect (sample_env [⟨3, 0⟩] true 0) idle_server sample_address true).server
      = ⟨3, true, none⟩ :=
  have h := connect_clean_transition (sample_env [⟨3, 0⟩] true 0) idle_server sample_address true rfl
  ⟨rfl, h.1.2 ⟨by decide, ⟨3, 0⟩, by decide, by decide, by decide⟩, by decide⟩

/-- C3, evaluated where it fails.  One candidate binds on handle `3`.  When
`set_non_blocking` fails, `connect` throws `CantSetNonblocking`; when `listen` fails,
it throws `ListenFailed`.  In both runs handle `3` was opened, `close` was never
called, and handle `3` is still open when the exception leaves `connect`. -/
theorem connect_leaks_bound_socket :
    (connect (sample_env [⟨3, 0⟩] false 0) idle_server sample_address false).result
      = .error .CantSetNonblocking ∧
    opened (connect (sample_env [⟨3, 0⟩] false 0) idle_server sample_address false).trace = [3] ∧
    closed (connect (sample_env [⟨3, 0⟩] false 0) idle_server sample_address false).trace = [] ∧
    still_open [] (connect (sample_env [⟨3, 0⟩] false 0) idle_server sample_address false).trace
      = [3] ∧
    (connect (sample_env [⟨3, 0⟩] true (-1)) idle_server sample_address false).result
      = .error .ListenFailed ∧
    opened (connect (sample_env [⟨3, 0⟩] true (-1)) idle_server sample_address false).trace = [3] ∧
    closed (connect (sample_env [⟨3, 0⟩] true (-1)) idle_server sample_address false).trace = [] ∧
    still_open [] (connect (sample_env [⟨3, 0⟩] true (-1)) idle_server sample_address false).trace
      = [3] := by
  refine ⟨rfl, ?_, ?_, ?_, rfl, ?_, ?_, ?_⟩ <;> decide

/-! ## Lemmas on teardown -/

/-- What `unsafe_disconnect` does, field by field. -/
theorem unsafe_disconnect_spec (s : TCPServer) :
    (unsafe_disconnect s).1.m_connected = false ∧
    (unsafe_disconnect s).1.m_listener = s.m_listener ∧
    (unsafe_disconnect s).1.m_fd = (if s.m_connected then -1 else s.m_fd) ∧
    (unsafe_disconnect s).2 = (if s.m_connected then [Event.close s.m_fd] else []) := by
  rcases s with ⟨fd, c, l⟩
  cases c <;> simp [unsafe_disconnect]

/-- On a server that is not connected `unsafe_disconnect` does nothing. -/
theorem unsafe_disconnect_of_not_connected (s : TCPServer) (h : s.m_connected = false) :
    unsafe_disconnect s = (s, []) := by
  simp [unsafe_disconnect, h]

/-- A teardown call on a server that is not connected calls `close` for no handle and
leaves the server as it is. -/
theorem run_teardown_of_not_connected (s : TCPServer) (h : s.m_connected = false)
    (call : Teardown) :
    (run_teardown s call).server = s ∧ closed (run_teardown s call).trace = [] := by
  rcases s with ⟨fd, c, l⟩
  simp only at h
  subst h
  cases call with
  | unsafe_disconnect => simp [run_teardown, unsafe_disconnect, closed]
  | safe_disconnect lock_throws =>
    cases lock_throws <;>
      simp [run_teardown, safe_disconnect, close_and_return, unsafe_disconnect, closed]
  | disconnect lock_throws t1 t2 =>
    cases lock_throws <;> cases l <;> cases t1 <;> cases t2 <;>
      simp [run_teardown, disconnect, disconnect_handler, notify_then, EventListener.tell_disconnected, close_and_return,
        terminate, unsafe_disconnect, closed]

/-- A teardown call on a connected server either returns, having called `close` once,
on the handle of the server, and having marked it torn down, or ends in
`std::terminate` before any `close`. -/
theorem run_teardown_of_connected (s : TCPServer) (h : s.m_connected = true) (call : Teardown) :
    ((run_teardown s call).outcome = .returned ∧
      (run_teardown s call).server = ⟨-1, false, s.m_listener⟩ ∧
      closed (run_teardown s call).trace = [s.m_fd]) ∨
    ((run_teardown s call).outcome = .terminated ∧ closed (run_teardown s call).trace = []) := by
  rcases s with ⟨fd, c, l⟩
  simp only at h
  subst h
  cases call with
  | unsafe_disconnect => simp [run_teardown, unsafe_disconnect, closed]
  | safe_disconnect lock_throws =>
    cases lock_throws <;>
      simp [run_teardown, safe_disconnect, close_and_return, unsafe_disconnect, closed]
  | disconnect lock_throws t1 t2 =>
    cases lock_throws <;> cases l <;> cases t1 <;> cases t2 <;>
      simp [run_teardown, disconnect, disconnect_handler, notify_then, EventListener.tell_disconnected, close_and_return,
        terminate, unsafe_disconnect, closed]

/-- Unfolding of `run_teardowns` on a first call that returns. -/
theorem run_teardowns_cons_returned (s : TCPServer) (call : Teardown) (calls : List Teardown)
    (h : (run_teardown s call).outcome = .returned) :
    (run_teardowns s (call :: calls)).trace =
      (run_teardown s call).trace ++ (run_teardowns (run_teardown s call).server calls).trace := by
  rcases hr : run_teardown s call with ⟨o, s', t⟩
  rw [hr] at h
  simp only at h
  subst h
  simp [run_teardowns, hr]

/-- Unfolding of `run_teardowns` on a first call that ends in `std::terminate`. -/
theorem run_teardowns_cons_terminated (s : TCPServer) (call : Teardown) (calls : List Teardown)
    (h : (run_teardown s call).outcome = .terminated) :
    (run_teardowns s (call :: calls)).trace = (run_teardown s call).trace := by
  rcases hr : run_teardown s call with ⟨o, s', t⟩
  rw [hr] at h
  simp only at h
  subst h
  simp [run_teardowns, hr]

/-- A sequence of teardown calls on a server that is not connected never calls `close`. -/
theorem run_teardowns_of_not_connected (calls : List Teardown) :
    ∀ s : TCPServer, s.m_connected = false → closed (run_teardowns s calls).trace = [] := by
  induction calls with
  | nil => intro s _; simp [run_teardowns, closed]
  | cons call calls ih =>
    intro s h
    obtain ⟨h1, h2⟩ := run_teardown_of_not_connected s h call
    cases ho : (run_teardown s call).outcome with
    | returned =>
      rw [run_teardowns_cons_returned s call calls ho, closed_append, h2, h1, ih s h]
      rfl
    | terminated =>
      rw [run_teardowns_cons_terminated s call calls ho, h2]

/-- A sequence of teardown calls on a connected server calls `close` at most once, and
then on the handle of the server. -/
theorem run_teardowns_of_connected (calls : List Teardown) (s : TCPServer)
    (h : s.m_connected = true) :
    closed (run_teardowns s calls).trace = [] ∨
      closed (run_teardowns s calls).trace = [s.m_fd] := by
  cases calls with
  | nil => left; simp [run_teardowns, closed]
  | cons call calls =>
    rcases run_teardown_of_connected s h call with ⟨ho, hs, hc⟩ | ⟨ho, hc⟩
    · right
      rw [run_teardowns_cons_returned s call calls ho, closed_append, hc, hs,
        run_teardowns_of_not_connected calls _ rfl]
      rfl
    · left
      rw [run_teardowns_cons_terminated s call calls ho, hc]

/-- The runs of `disconnect` that end in `std::terminate`: a listener is registered
and its notification throws something the handler does not catch, or throws inside
the handler. -/
theorem disconnect_terminated_iff (s : TCPServer) (lock_throws : Bool)
    (tell_in_try tell_in_catch : TellOutcome) :
    (disconnect s lock_throws tell_in_try tell_in_catch).outcome = .terminated ↔
      s.m_listener ≠ none ∧
        ((lock_throws = true ∧ tell_in_catch ≠ .returned) ∨
         (lock_throws = false ∧ tell_in_try = .threw_other) ∨
         (lock_throws = false ∧ tell_in_try = .threw_std_exception ∧
            tell_in_catch ≠ .returned)) := by
  rcases s with ⟨fd, c, l⟩
  cases lock_throws <;> cases l <;> cases tell_in_try <;> cases tell_in_catch <;>
    simp [disconnect, disconnect_handler, notify_then, EventListener.tell_disconnected, close_and_return, terminate]

/-! ## Claims on teardown -/

/-- C4. Teardown is idempotent.  For every server state (a server that is not
connected holds the invalid handle):
* a second `unsafe_disconnect` returns the state of the first and makes no call;
* after any teardown call that returned, the handle is `-1` and the server is not
  connected, and any further teardown call (`unsafe_disconnect`, `safe_disconnect`,
  `disconnect`, any outcome of the lock and of the notification) leaves the server
  unchanged and calls `close` for no handle;
* `safe_disconnect` returns normally whether or not the lock throws, the first and
  the second time, and so does `disconnect` when the notification returns;
* over any sequence of teardown calls `close` is called at most once, and only on the
  handle the server owned while connected;
* on a server that is not connected no sequence of teardown calls calls `close`. -/
theorem teardown_idempotent (s : TCPServer) (hinv : s.m_connected = false → s.m_fd = -1) :
    unsafe_disconnect (unsafe_disconnect s).1 = ((unsafe_disconnect s).1, []) ∧
    (unsafe_disconnect s).1.m_fd = -1 ∧
    (unsafe_disconnect s).1.m_connected = false ∧
    (∀ first second : Teardown, (run_teardown s first).outcome = .returned →
      (run_teardown s first).server.m_fd = -1 ∧
      (run_teardown s first).server.m_connected = false ∧
      (run_teardown (run_teardown s first).server second).server = (run_teardown s first).server ∧
      closed (run_teardown (run_teardown s first).server second).trace = []) ∧
    (∀ lock1 lock2 : Bool,
      (safe_disconnect s lock1).outcome = .returned ∧
      (safe_disconnect (safe_disconnect s lock1).server lock2).outcome = .returned ∧
      (disconnect s lock1 .returned .returned).outcome = .returned ∧
      (disconnect (disconnect s lock1 .returned .returned).server lock2
        .returned .returned).outcome = .returned) ∧
    (∀ calls : List Teardown,
      (closed (run_teardowns s calls).trace).length ≤ 1 ∧
      ∀ fd ∈ closed (run_teardowns s calls).trace, s.m_connected = true ∧ fd = s.m_fd) ∧
    (s.m_connected = false → ∀ calls : List Teardown,
      closed (run_teardowns s calls).trace = []) := by
  obtain ⟨u1, _, u3, _⟩ := unsafe_disconnect_spec s
  refine ⟨unsafe_disconnect_of_not_connected _ u1, ?_, u1, ?_, ?_, ?_, ?_⟩
  · rw [u3]
    cases hc : s.m_connected with
    | true => simp
    | false => simpa using hinv hc
  · intro first second hret
    have hstate : (run_teardown s first).server.m_fd = -1 ∧
        (run_teardown s first).server.m_connected = false := by
      cases hc : s.m_connected with
      | true =>
        rcases run_teardown_of_connected s hc first with ⟨_, hs, _⟩ | ⟨ho, _⟩
        · rw [hs]; exact ⟨rfl, rfl⟩
        · rw [ho] at hret; cases hret
      | false =>
        rw [(run_teardown_of_not_connected s hc first).1]
        exact ⟨hinv hc, hc⟩
    exact ⟨hstate.1, hstate.2, run_teardown_of_not_connected _ hstate.2 second⟩
  · intro lock1 lock2
    rcases s with ⟨fd, c, l⟩
    cases lock1 <;> cases lock2 <;> cases c <;> cases l <;>
      simp [safe_disconnect, disconnect, disconnect_handler, notify_then, EventListener.tell_disconnected, close_and_return,
        unsafe_disconnect]
  · intro calls
    cases hc : s.m_connected with
    | true =>
      rcases run_teardowns_of_connected calls s hc with h | h <;> rw [h] <;> simp
    | false =>
      rw [run_teardowns_of_not_connected calls s hc]
      simp
  · intro hc calls
    exact run_teardowns_of_not_connected calls s hc

/-- C7. `safe_disconnect` returns normally whether or not the lock throws; afterwards
the server is not connected, its handle is invalid and its listener pointer is what
it was; no listener is notified; `close` is called exactly for the handle of a
connected server, which is the `close` every returning run of `disconnect` performs,
with the same server afterwards.  The destructor ends in the same state with the same
`close` and notifies nobody. -/
theorem safe_disconnect_does_not_notify (s : TCPServer) (lock_throws : Bool)
    (hinv : s.m_connected = false → s.m_fd = -1) :
    (safe_disconnect s lock_throws).outcome = .returned ∧
    (safe_disconnect s lock_throws).server.m_connected = false ∧
    (safe_disconnect s lock_throws).server.m_fd = -1 ∧
    (safe_disconnect s lock_throws).server.m_listener = s.m_listener ∧
    notified (safe_disconnect s lock_throws).trace = [] ∧
    closed (safe_disconnect s lock_throws).trace = (if s.m_connected then [s.m_fd] else []) ∧
    (∀ (lock_throws' : Bool) (tell_in_try tell_in_catch : TellOutcome),
      (disconnect s lock_throws' tell_in_try tell_in_catch).outcome = .returned →
      (disconnect s lock_throws' tell_in_try tell_in_catch).server
        = (safe_disconnect s lock_throws).server ∧
      closed (disconnect s lock_throws' tell_in_try tell_in_catch).trace
        = closed (safe_disconnect s lock_throws).trace) ∧
    (TCPServer_destructor s).1 = (safe_disconnect s lock_throws).server ∧
    closed (TCPServer_destructor s).2 = closed (safe_disconnect s lock_throws).trace ∧
    notified (TCPServer_destructor s).2 = [] := by
  rcases s with ⟨fd, c, l⟩
  cases c with
  | false =>
    have hfd : fd = -1 := hinv rfl
    subst hfd
    refine ⟨?_, ?_, ?_, ?_, ?_, ?_, ?_, ?_, ?_, ?_⟩
    case refine_7 =>
      intro l' t1 t2
      cases lock_throws <;> cases l' <;> cases l <;> cases t1 <;> cases t2 <;>
        simp [safe_disconnect, disconnect, disconnect_handler, notify_then, EventListener.tell_disconnected, close_and_return,
          terminate, unsafe_disconnect, closed]
    all_goals
      cases lock_throws <;>
        simp [safe_disconnect, close_and_return, unsafe_disconnect, TCPServer_destructor,
          closed, notified]
  | true =>
    refine ⟨?_, ?_, ?_, ?_, ?_, ?_, ?_, ?_, ?_, ?_⟩
    case refine_7 =>
      intro l' t1 t2
      cases lock_throws <;> cases l' <;> cases l <;> cases t1 <;> cases t2 <;>
        simp [safe_disconnect, disconnect, disconnect_handler, notify_then, EventListener.tell_disconnected, close_and_return,
          terminate, unsafe_disconnect, closed]
    all_goals
      cases lock_throws <;>
        simp [safe_disconnect, close_and_return, unsafe_disconnect, TCPServer_destructor,
          closed, notified]

/-- The statements of `disconnect` are those of `disconnect_with` for a callee that
writes nothing to the server. -/
theorem disconnect_with_id (s : TCPServer) (lock_throws : Bool)
    (tell_in_try tell_in_catch : TellOutcome) :
    disconnect_with id s lock_throws tell_in_try tell_in_catch
      = disconnect s lock_throws tell_in_try tell_in_catch := by
  rcases s with ⟨fd, c, l⟩
  cases lock_throws <;> cases l <;> cases tell_in_try <;> cases tell_in_catch <;>
    simp [disconnect_with, disconnect_handler_with, notify_with, disconnect, disconnect_handler,
      notify_then]

/-- What decides a second notification.  On a server with a listener, after a first
`disconnect` whose notification returned, a second `disconnect` calls the listener
again exactly when the first call of `tell_disconnected` returned with `m_listener`
still set: `disconnect` guards the notification by `m_listener` alone. -/
theorem disconnect_with_second_notification (tell : TCPServer → TCPServer) (s : TCPServer)
    (l : Nat) (lock1 lock2 : Bool) (hlistener : s.m_listener = some l) :
    notified (disconnect_with tell (disconnect_with tell s lock1 .returned .returned).server
      lock2 .returned .returned).trace = [] ↔ (tell s).m_listener = none := by
  rcases s with ⟨fd, c, m⟩
  simp only at hlistener
  subst hlistener
  rcases ht : tell ⟨fd, c, some l⟩ with ⟨fd', c', m'⟩
  cases lock1 <;> cases lock2 <;> cases c' <;> cases m' <;>
    simp [disconnect_with, disconnect_handler_with, notify_with, close_and_return,
      unsafe_disconnect, EventListener.tell_disconnected, notified, ht]

/-- C6, evaluated where it fails.  A connected server on handle `3` with listener `0`;
the lock is acquired.  When `tell_disconnected` throws a `std::exception` in the `try`
block and again in the handler, `disconnect` ends in `std::terminate`: the listener was
called twice, `close` was never called, and the server still owns handle `3`.  The same
happens when the lock throws and the notification in the handler throws.  When only the
first notification throws, `disconnect` returns with the handle closed, having called
the listener twice. -/
theorem disconnect_terminates_when_notification_throws :
    disconnect listening_server false .threw_std_exception .threw_std_exception =
      ⟨.terminated, ⟨3, true, some 0⟩,
        [Event.lock true, Event.tell_disconnected 0, Event.warn_lock,
          Event.tell_disconnected 0]⟩ ∧
    closed (disconnect listening_server false .threw_std_exception .threw_std_exception).trace
      = [] ∧
    disconnect listening_server true .returned .threw_std_exception =
      ⟨.terminated, ⟨3, true, some 0⟩,
        [Event.lock false, Event.warn_lock, Event.tell_disconnected 0]⟩ ∧
    disconnect listening_server false .threw_std_exception .returned =
      ⟨.returned, ⟨-1, false, some 0⟩,
        [Event.lock true, Event.tell_disconnected 0, Event.warn_lock,
          Event.tell_disconnected 0, Event.close 3]⟩ ∧
    notified (disconnect listening_server false .threw_std_exception .returned).trace
      = [0, 0] := by
  decide

/-- Witness of C4: the connected server on handle `3`; three teardown calls in a row
close handle `3` once. -/
theorem teardown_idempotent_witness :
    (listening_server.m_connected = false → listening_server.m_fd = -1) ∧
    unsafe_disconnect (unsafe_disconnect listening_server).1
      = (⟨-1, false, some 0⟩, []) ∧
    closed (run_teardowns listening_server
      [.safe_disconnect true, .disconnect false .returned .returned, .unsafe_disconnect]).trace
      = [3] :=
  have h := teardown_idempotent listening_server (by decide)
  ⟨by decide, h.1, by decide⟩

/-- Witness of C7: the connected server on handle `3` with listener `0`, the lock
throwing. -/
theorem safe_disconnect_does_not_notify_witness :
    (listening_server.m_connected = false → listening_server.m_fd = -1) ∧
    (safe_disconnect listening_server true).server = ⟨-1, false, some 0⟩ ∧
    notified (safe_disconnect listening_server true).trace = [] ∧
    closed (safe_disconnect listening_server true).trace = [3] :=
  have h := safe_disconnect_does_not_notify listening_server true (by decide)
  ⟨by decide, by decide, h.2.2.2.2.1, h.2.2.2.2.2.1⟩

/-! ## Claims on `Packet::swap` -/

end SedNL
